import Mathlib

/-!
Shallow embedding of the noa voxel-engine orchestrator (src/index.js).

The engine's own state (tick rate, block-test distance, cached block
targets, accumulated mouse deltas, the player mesh slot) is embedded
directly from the source.  Collaborator subsystems (World, Rendering,
Physics, Controls, Entities, Inputs, Container) and the external
voxel-raycast primitive live outside src/; the data the orchestrator reads
from them is embedded as engine-state fields or function-valued fields,
and the calls the orchestrator makes into them are recorded as an event
trace, so ordering claims are statements about the trace.
-/

namespace Noa

/-- A fractional 3D point (positions, camera vectors, ray hit points). -/
structure Vec3R where
  x : Rat
  y : Rat
  z : Rat
deriving DecidableEq, Repr

/-- An integer voxel coordinate or face normal triple. -/
structure Vec3I where
  x : Int
  y : Int
  z : Int
deriving DecidableEq, Repr

/-- Componentwise floor, as in result.position.map(Math.floor). -/
def Vec3R.floor3 (v : Vec3R) : Vec3I :=
  ⟨Rat.floor v.x, Rat.floor v.y, Rat.floor v.z⟩

/-- Componentwise sum, as in [ loc[0]+norm[0], loc[1]+norm[1], loc[2]+norm[2] ]. -/
def Vec3I.add3 (a b : Vec3I) : Vec3I :=
  ⟨a.x + b.x, a.y + b.y, a.z + b.z⟩

/-- Modelled from the spec: the World collaborator (lib/world, not under
src/).  Section 6 contract: getBlockID(x,y,z) -> id, setBlockID(id,x,y,z),
getBlockSolidity(x,y,z) -> bool.  Voxel storage is an association list of
writes over an empty default of id 0, plus a registry-derived solidity
predicate on block ids. -/
structure World where
  blocks : List (Vec3I × Nat)
  solidOf : Nat → Bool

/-- Modelled from the spec: World.getBlockID(x,y,z) -> id, with the
sentinel empty value 0 for never-written voxels. -/
def World.getBlockID (w : World) (x y z : Int) : Nat :=
  match w.blocks.find? (fun p => p.1 = Vec3I.mk x y z) with
  | some p => p.2
  | none => 0

/-- Modelled from the spec: World.setBlockID(id,x,y,z); the newest write
at a voxel is the one getBlockID sees. -/
def World.setBlockID (id : Nat) (x y z : Int) (w : World) : World :=
  ⟨(Vec3I.mk x y z, id) :: w.blocks, w.solidOf⟩

/-- Modelled from the spec: World.getBlockSolidity(x,y,z) -> bool, the
solid query answering whether a voxel participates in collision. -/
def World.getBlockSolidity (w : World) (x y z : Int) : Bool :=
  w.solidOf (w.getBlockID x y z)

/-- Result of the external voxel-raycast primitive: its return value
(blockId, 0 on miss per the section 6 contract) together with the
contents it wrote into the out-position and out-normal buffers. -/
structure RayHit where
  ret : Nat
  hitPos : Vec3R
  hitNorm : Vec3I
deriving DecidableEq, Repr

/-- A PickResult as built by Engine.prototype.pick: the traversal's
return value, the fractional hit position, and the integer face normal. -/
structure PickResult where
  block : Nat
  position : Vec3R
  normal : Vec3I
deriving DecidableEq, Repr

/-- The eight subsystems the Engine constructor builds. -/
inductive Subsystem
  | container
  | inputs
  | registry
  | world
  | rendering
  | physics
  | controls
  | entities
deriving DecidableEq, Repr

/-- Calls the orchestrator makes into collaborator subsystems, recorded
in order as an event trace. -/
inductive Ev
  | worldTick (dt : Rat)
  | renderingTick (dt : Rat)
  | controlsTickZoom (dt : Rat)
  | controlsTickPhysics (dt : Rat)
  | physicsTick (dt : Rat)
  | entitiesTick (dt : Rat)
  | emitTick (dt : Rat)
  | highlightOn (loc : Vec3I) (norm : Vec3I)
  | highlightOff
  | controlsTickCamera
  | clearMouseDelta
  | updateEntitiesForRender (dt : Rat)
  | renderingRender (dt : Rat)
deriving DecidableEq, Repr

/-- Engine state.  Fields starting at tickRate and blockTestDistance down
to playerMeshOffset are the orchestrator's own state from src/index.js
(this._tickRate, this.blockTestDistance, this._blockTargetLoc,
this._blockPlacementLoc, the player mesh slot).  The remaining fields are
the collaborator-held data the orchestrator reads: the world voxel store,
Entities.isTerrainBlocked, the player entity's position and bounding-box
height, Rendering's camera vector, the Container pointer-lock flags,
Inputs.state (fire, dx, dy), and the external raycast primitive bound in
the constructor. -/
structure Engine where
  tickRate : Rat
  blockTestDistance : Rat
  world : World
  isTerrainBlocked : Int → Int → Int → Bool
  playerPos : Vec3R
  playerBBHeight : Rat
  cameraVec : Vec3R
  raycastPrim : (Int → Int → Int → Bool) → Vec3R → Vec3R → Rat → RayHit
  hasPointerLock : Bool
  supportsPointerLock : Bool
  fireHeld : Bool
  dx : Rat
  dy : Rat
  blockTargetLoc : Option Vec3I
  blockPlacementLoc : Option Vec3I
  playerMesh : Option Nat
  playerMeshOffset : Option Vec3R

/-- JavaScript a || b for a numeric option (0 is falsy, so a present zero
falls back to the default, as does an absent value). -/
def jsOrNum (a : Option Rat) (d : Rat) : Rat :=
  match a with
  | none => d
  | some v => if v = 0 then d else v

/-- Constructor options; none means the option was not supplied.
Defaults mirror the defaults table in src/index.js. -/
structure Opts where
  playerHeight : Option Rat
  playerWidth : Option Rat
  playerStart : Option Vec3R
  playerAutoStep : Option Bool
  tickRate : Option Rat
  blockTestDistance : Option Rat

/-- Initial collaborator-held data handed to the constructor (the
subsystems themselves are external; this is the state the orchestrator
observes through them). -/
structure Collab where
  world : World
  isTerrainBlocked : Int → Int → Int → Bool
  cameraVec : Vec3R
  raycastPrim : (Int → Int → Int → Bool) → Vec3R → Vec3R → Rat → RayHit
  hasPointerLock : Bool
  supportsPointerLock : Bool
  fireHeld : Bool
  dx : Rat
  dy : Rat

/-- The Engine constructor (function Engine(opts) in src/index.js):
resolves options against the defaults table (extend semantics: absent
means default), constructs the eight subsystems in source order
(recorded in the returned trace), spawns the player entity with the
configured start position and capsule height, and resolves
blockTestDistance with opts.blockTestDistance || 10. -/
def makeEngine (o : Opts) (c : Collab) : Engine × List Subsystem :=
  ({ tickRate := o.tickRate.getD 30
     blockTestDistance := jsOrNum o.blockTestDistance 10
     world := c.world
     isTerrainBlocked := c.isTerrainBlocked
     playerPos := o.playerStart.getD ⟨0, 10, 0⟩
     playerBBHeight := o.playerHeight.getD (9 / 5)
     cameraVec := c.cameraVec
     raycastPrim := c.raycastPrim
     hasPointerLock := c.hasPointerLock
     supportsPointerLock := c.supportsPointerLock
     fireHeld := c.fireHeld
     dx := c.dx
     dy := c.dy
     blockTargetLoc := none
     blockPlacementLoc := none
     playerMesh := none
     playerMeshOffset := none },
   [Subsystem.container, Subsystem.inputs, Subsystem.registry,
    Subsystem.world, Subsystem.rendering, Subsystem.physics,
    Subsystem.controls, Subsystem.entities])

/-- Engine.prototype.getPlayerPosition. -/
def Engine.getPlayerPosition (e : Engine) : Vec3R :=
  e.playerPos

/-- Engine.prototype.getPlayerEyePosition: player position with
0.9 * bounding-box height added to the y component. -/
def Engine.getPlayerEyePosition (e : Engine) : Vec3R :=
  ⟨e.playerPos.x, e.playerPos.y + e.playerBBHeight * (9 / 10), e.playerPos.z⟩

/-- Engine.prototype.getCameraVector: the rendering camera's forward
vector (vec3.fromValues of its x, y, z). -/
def Engine.getCameraVector (e : Engine) : Vec3R :=
  e.cameraVec

/-- this._traceWorldRayCollision: the raycast primitive bound to the
world's solidity query (solid-only traversal). -/
def Engine.traceWorldRayCollision (e : Engine) (p v : Vec3R) (d : Rat) : RayHit :=
  e.raycastPrim (fun x y z => e.world.getBlockSolidity x y z) p v d

/-- Engine.prototype.pick(pos, vec, dist): returns null when dist is
exactly 0; otherwise defaults pos to the player eye position, vec to the
camera vector and dist (when falsy) to blockTestDistance, runs the
solid-only traversal, and returns null on a miss or the PickResult on a
hit (the traversal return is truthy). -/
def Engine.pick (e : Engine) (pos vec : Option Vec3R) (dist : Option Rat) :
    Option PickResult :=
  if dist = some 0 then none
  else
    let p := pos.getD e.getPlayerEyePosition
    let v := vec.getD e.getCameraVector
    let d := jsOrNum dist e.blockTestDistance
    let r := e.traceWorldRayCollision p v d
    if r.ret ≠ 0 then some ⟨r.ret, r.hitPos, r.hitNorm⟩ else none

/-- Engine.prototype.setBlockTargets: picks with defaults; on a hit
caches the floored hit position and its neighbour along the normal and
highlights that face; on a miss clears both caches and the highlight. -/
def Engine.setBlockTargets (e : Engine) : Engine × List Ev :=
  match e.pick none none none with
  | some r =>
    let loc := r.position.floor3
    let norm := r.normal
    ({ e with blockTargetLoc := some loc
              blockPlacementLoc := some (loc.add3 norm) },
     [Ev.highlightOn loc norm])
  | none =>
    ({ e with blockTargetLoc := none, blockPlacementLoc := none },
     [Ev.highlightOff])

/-- Engine.prototype.tick: no delta argument; dt is the fixed tick rate;
ticks World, Rendering, Controls zoom, Controls physics, Physics, then
recomputes block targets, ticks Entities, and emits the tick event. -/
def Engine.tick (e : Engine) : Engine × List Ev :=
  let dt := e.tickRate
  let sbt := e.setBlockTargets
  (sbt.1,
   [Ev.worldTick dt, Ev.renderingTick dt, Ev.controlsTickZoom dt,
    Ev.controlsTickPhysics dt, Ev.physicsTick dt]
   ++ sbt.2
   ++ [Ev.entitiesTick dt, Ev.emitTick dt])

/-- Engine.prototype.render(framePart): dt is framePart * tickRate; the
camera ticks only under pointer lock, missing pointer-lock support, or a
held fire input; the cumulative mouse deltas are then cleared, entities
are updated for render, and the scene is rendered. -/
def Engine.render (e : Engine) (framePart : Rat) : Engine × List Ev :=
  let dt := framePart * e.tickRate
  let camEv :=
    if e.hasPointerLock || !e.supportsPointerLock || e.fireHeld
    then [Ev.controlsTickCamera] else []
  ({ e with dx := 0, dy := 0 },
   camEv ++ [Ev.clearMouseDelta, Ev.updateEntitiesForRender dt,
             Ev.renderingRender dt])

/-- The coordinate argument of getBlock, setBlock and addBlock: either a
3-element coordinate container or three scalars.  The source dispatches
on x.length, which is truthy exactly for the container form. -/
inductive BlockArg
  | vec (v : Vec3I)
  | xyz (x y z : Int)
deriving DecidableEq, Repr

/-- var arr = (x.length) ? x : [x,y,z] -/
def BlockArg.arr : BlockArg → Vec3I
  | BlockArg.vec v => v
  | BlockArg.xyz x y z => ⟨x, y, z⟩

/-- Engine.prototype.getBlock: read passthrough to World.getBlockID. -/
def Engine.getBlock (e : Engine) (a : BlockArg) : Nat :=
  e.world.getBlockID a.arr.x a.arr.y a.arr.z

/-- Engine.prototype.setBlock: unconditional write passthrough to
World.setBlockID (skips the entity collision check). -/
def Engine.setBlock (e : Engine) (id : Nat) (a : BlockArg) : Engine :=
  { e with world := World.setBlockID id a.arr.x a.arr.y a.arr.z e.world }

/-- Engine.prototype.addBlock: returns with no mutation when
Entities.isTerrainBlocked holds at the voxel, else writes like setBlock. -/
def Engine.addBlock (e : Engine) (id : Nat) (a : BlockArg) : Engine :=
  if e.isTerrainBlocked a.arr.x a.arr.y a.arr.z then e
  else { e with world := World.setBlockID id a.arr.x a.arr.y a.arr.z e.world }

/-- Engine.prototype.getTargetBlock. -/
def Engine.getTargetBlock (e : Engine) : Option Vec3I :=
  e.blockTargetLoc

/-- Engine.prototype.getTargetBlockAdjacent. -/
def Engine.getTargetBlockAdjacent (e : Engine) : Option Vec3I :=
  e.blockPlacementLoc

/-- Engine.prototype.setPlayerMesh. -/
def Engine.setPlayerMesh (e : Engine) (mesh : Option Nat) (off : Option Vec3R) :
    Engine :=
  { e with playerMesh := mesh, playerMeshOffset := off }

/-! Concrete fixtures used to instantiate the universally quantified
theorems: a registry marking every nonzero id solid, a world with block
id 7 at voxel (5,5,5), an empty world, and a simple raycast primitive
that reports a hit inside voxel (5,5,5) exactly when that voxel answers
the solidity query and the distance is positive. -/

def solidNonzero : Nat → Bool := fun id => decide (id ≠ 0)

def worldHit : World := ⟨[(⟨5, 5, 5⟩, 7)], solidNonzero⟩

def worldMiss : World := ⟨[], solidNonzero⟩

def testRaycast (q : Int → Int → Int → Bool) (_p _v : Vec3R) (d : Rat) : RayHit :=
  if q 5 5 5 && decide (0 < d) then
    ⟨1, ⟨mkRat 11 2, mkRat 26 5, mkRat 5999 1000⟩, ⟨0, 0, 1⟩⟩
  else ⟨0, ⟨0, 0, 0⟩, ⟨0, 0, 0⟩⟩

def testBlocked : Int → Int → Int → Bool :=
  fun x y z => decide (x = 1 ∧ y = 2 ∧ z = 3)

def defaultOpts : Opts := ⟨none, none, none, none, none, none⟩

def collabHit : Collab :=
  ⟨worldHit, testBlocked, ⟨0, 0, -1⟩, testRaycast, true, true, false, 3, 4⟩

def collabMiss : Collab :=
  ⟨worldMiss, testBlocked, ⟨0, 0, -1⟩, testRaycast, false, true, false, 3, 4⟩

def eHit : Engine := (makeEngine defaultOpts collabHit).1

def eMiss : Engine := (makeEngine defaultOpts collabMiss).1

def pr0 : PickResult := ⟨1, ⟨mkRat 11 2, mkRat 26 5, mkRat 5999 1000⟩, ⟨0, 0, 1⟩⟩

/-- C1: tick() takes no delta argument; it ticks World, Rendering,
Controls zoom, Controls physics and Physics, recomputes block targets,
ticks Entities and finally emits the tick event, in exactly that order,
every call carrying dt equal to the configured tick-rate constant; the
engine-state change of a tick is exactly that of the block-target
recompute. -/
theorem tick_fixed_dt_and_order (e : Engine) :
    (e.tick).2 =
      [Ev.worldTick e.tickRate, Ev.renderingTick e.tickRate,
       Ev.controlsTickZoom e.tickRate, Ev.controlsTickPhysics e.tickRate,
       Ev.physicsTick e.tickRate]
      ++ e.setBlockTargets.2
      ++ [Ev.entitiesTick e.tickRate, Ev.emitTick e.tickRate]
    ∧ (e.tick).1 = e.setBlockTargets.1 :=
  ⟨rfl, rfl⟩

/-- C2: for pick(pos, vec, dist) with dist not exactly zero, a missing
pos defaults to the player eye position (player position plus 0.9 times
the bounding-box height on y), a missing vec defaults to the camera
vector, a missing dist defaults to the configured block-test distance;
the call runs the solid-only traversal and returns none on a miss, else
the hit block value, fractional hit position and integer face normal. -/
theorem pick_defaults_and_result (e : Engine) (pos vec : Option Vec3R)
    (dist : Option Rat) (h : dist ≠ some 0) :
    (e.pick pos vec dist =
      (let r := e.traceWorldRayCollision (pos.getD e.getPlayerEyePosition)
          (vec.getD e.getCameraVector) (jsOrNum dist e.blockTestDistance)
       if r.ret ≠ 0 then some ⟨r.ret, r.hitPos, r.hitNorm⟩ else none))
    ∧ e.getPlayerEyePosition =
      ⟨e.playerPos.x, e.playerPos.y + e.playerBBHeight * (9 / 10), e.playerPos.z⟩ := by
  refine ⟨?_, rfl⟩
  unfold Engine.pick
  rw [if_neg h]

/-- Closed instance of pick_defaults_and_result on the concrete hitting
engine, discharging the nonzero-distance hypothesis at dist = none. -/
theorem pick_defaults_and_result_witness :
    ((none : Option Rat) ≠ some 0)
    ∧ (Engine.pick eHit none none none =
        (let r := Engine.traceWorldRayCollision eHit
            ((none : Option Vec3R).getD (Engine.getPlayerEyePosition eHit))
            ((none : Option Vec3R).getD (Engine.getCameraVector eHit))
            (jsOrNum none eHit.blockTestDistance)
         if r.ret ≠ 0 then some ⟨r.ret, r.hitPos, r.hitNorm⟩ else none))
    ∧ Engine.pick eHit none none none = some pr0 :=
  ⟨by decide, (pick_defaults_and_result eHit none none none (by decide)).1, by decide⟩

/-- C3: pick with distance exactly 0 returns none for every origin and
direction and every engine (in particular for engines whose traversal
would report a hit at distance 0), while an absent distance does not
return none outright: it proceeds with the configured block-test
distance. -/
theorem pick_zero_vs_absent_distance (e : Engine) (pos vec : Option Vec3R) :
    e.pick pos vec (some 0) = none
    ∧ e.pick pos vec none =
      (let r := e.traceWorldRayCollision (pos.getD e.getPlayerEyePosition)
          (vec.getD e.getCameraVector) e.blockTestDistance
       if r.ret ≠ 0 then some ⟨r.ret, r.hitPos, r.hitNorm⟩ else none) := by
  constructor
  · unfold Engine.pick
    rw [if_pos rfl]
  · unfold Engine.pick
    rw [if_neg (show ¬ ((none : Option Rat) = some 0) by simp)]
    rfl

/-- C4: setBlockTargets caches, on a hit of the default pick, the
componentwise floor of the fractional hit position as the target, that
target plus the hit normal as the placement location, and emits the
highlight-on event for that face; on a miss it clears both caches and
emits highlight-off. -/
theorem setBlockTargets_hit_and_miss (e : Engine) :
    (∀ r : PickResult, e.pick none none none = some r →
      e.setBlockTargets.1.getTargetBlock = some r.position.floor3
      ∧ e.setBlockTargets.1.getTargetBlockAdjacent =
          some (r.position.floor3.add3 r.normal)
      ∧ e.setBlockTargets.2 = [Ev.highlightOn r.position.floor3 r.normal])
    ∧ (e.pick none none none = none →
      e.setBlockTargets.1.getTargetBlock = none
      ∧ e.setBlockTargets.1.getTargetBlockAdjacent = none
      ∧ e.setBlockTargets.2 = [Ev.highlightOff]) := by
  constructor
  · intro r hr
    simp [Engine.setBlockTargets, hr, Engine.getTargetBlock,
      Engine.getTargetBlockAdjacent]
  · intro hm
    simp [Engine.setBlockTargets, hm, Engine.getTargetBlock,
      Engine.getTargetBlockAdjacent]

/-- Closed instance of setBlockTargets_hit_and_miss: on the concrete
hitting engine the cached target is voxel (5,5,5) and the placement
location is (5,5,6), one step along the normal (0,0,1); on the concrete
missing engine both caches are cleared. -/
theorem setBlockTargets_hit_and_miss_witness :
    Engine.pick eHit none none none = some pr0
    ∧ Vec3R.floor3 pr0.position = ⟨5, 5, 5⟩
    ∧ (Engine.setBlockTargets eHit).1.getTargetBlock = some (Vec3R.floor3 pr0.position)
    ∧ (Engine.setBlockTargets eHit).1.getTargetBlockAdjacent =
        some ((Vec3R.floor3 pr0.position).add3 pr0.normal)
    ∧ (Engine.setBlockTargets eHit).2 =
        [Ev.highlightOn (Vec3R.floor3 pr0.position) pr0.normal]
    ∧ Engine.pick eMiss none none none = none
    ∧ (Engine.setBlockTargets eMiss).1.getTargetBlock = none
    ∧ (Engine.setBlockTargets eMiss).1.getTargetBlockAdjacent = none
    ∧ (Engine.setBlockTargets eMiss).2 = [Ev.highlightOff] :=
  have hh := (setBlockTargets_hit_and_miss eHit).1 pr0 (by decide)
  have hm := (setBlockTargets_hit_and_miss eMiss).2 (by decide)
  ⟨by decide, by decide, hh.1, hh.2.1, hh.2.2,
   by decide, hm.1, hm.2.1, hm.2.2⟩

/-- C5: after construction and after setBlockTargets and tick, the two
block-target caches read by getTargetBlock and getTargetBlockAdjacent
are simultaneously none or simultaneously some; every other
state-changing operation (render, setBlock, addBlock, setPlayerMesh)
leaves both caches unchanged. -/
theorem target_state_invariant (o : Opts) (c : Collab) (e : Engine)
    (fp : Rat) (id : Nat) (a : BlockArg) (m : Option Nat) (off : Option Vec3R) :
    ((makeEngine o c).1.getTargetBlock.isSome
       = (makeEngine o c).1.getTargetBlockAdjacent.isSome)
    ∧ (e.setBlockTargets.1.getTargetBlock.isSome
       = e.setBlockTargets.1.getTargetBlockAdjacent.isSome)
    ∧ (e.tick.1.getTargetBlock.isSome = e.tick.1.getTargetBlockAdjacent.isSome)
    ∧ ((e.render fp).1.getTargetBlock = e.getTargetBlock
       ∧ (e.render fp).1.getTargetBlockAdjacent = e.getTargetBlockAdjacent)
    ∧ ((e.setBlock id a).getTargetBlock = e.getTargetBlock
       ∧ (e.setBlock id a).getTargetBlockAdjacent = e.getTargetBlockAdjacent)
    ∧ ((e.addBlock id a).getTargetBlock = e.getTargetBlock
       ∧ (e.addBlock id a).getTargetBlockAdjacent = e.getTargetBlockAdjacent)
    ∧ ((e.setPlayerMesh m off).getTargetBlock = e.getTargetBlock
       ∧ (e.setPlayerMesh m off).getTargetBlockAdjacent
          = e.getTargetBlockAdjacent) := by
  have hsbt : e.setBlockTargets.1.getTargetBlock.isSome
      = e.setBlockTargets.1.getTargetBlockAdjacent.isSome := by
    unfold Engine.setBlockTargets
    cases e.pick none none none <;>
      simp [Engine.getTargetBlock, Engine.getTargetBlockAdjacent]
  refine ⟨rfl, hsbt, hsbt, ⟨rfl, rfl⟩, ⟨rfl, rfl⟩, ?_, ⟨rfl, rfl⟩⟩
  unfold Engine.addBlock
  by_cases hb : e.isTerrainBlocked a.arr.x a.arr.y a.arr.z
  · rw [if_pos hb]
    exact ⟨rfl, rfl⟩
  · rw [if_neg hb]
    exact ⟨rfl, rfl⟩

/-- C6: addBlock at a voxel where Entities.isTerrainBlocked holds leaves
the engine, and in particular the world, unchanged; at an unblocked
voxel it equals setBlock; and setBlock always performs the World write
with the same arguments, with no entity-collision guard. -/
theorem addBlock_guard_and_setBlock_unguarded (e : Engine) (id : Nat)
    (a : BlockArg) :
    (e.isTerrainBlocked a.arr.x a.arr.y a.arr.z = true → e.addBlock id a = e)
    ∧ (e.isTerrainBlocked a.arr.x a.arr.y a.arr.z = false →
        e.addBlock id a = e.setBlock id a)
    ∧ (e.setBlock id a).world = World.setBlockID id a.arr.x a.arr.y a.arr.z e.world := by
  refine ⟨?_, ?_, rfl⟩
  · intro hb
    unfold Engine.addBlock
    rw [if_pos hb]
  · intro hb
    unfold Engine.addBlock Engine.setBlock
    rw [if_neg (by simp [hb])]

/-- Closed instance of addBlock_guard_and_setBlock_unguarded on the
concrete engine: voxel (1,2,3) is entity-blocked so addBlock is a
no-op there, voxel (0,0,0) is unblocked so addBlock writes exactly as
setBlock. -/
theorem addBlock_guard_and_setBlock_unguarded_witness :
    eHit.isTerrainBlocked 1 2 3 = true
    ∧ Engine.addBlock eHit 7 (BlockArg.xyz 1 2 3) = eHit
    ∧ eHit.isTerrainBlocked 0 0 0 = false
    ∧ Engine.addBlock eHit 7 (BlockArg.xyz 0 0 0)
        = Engine.setBlock eHit 7 (BlockArg.xyz 0 0 0) :=
  ⟨by decide,
   (addBlock_guard_and_setBlock_unguarded eHit 7 (BlockArg.xyz 1 2 3)).1 (by decide),
   by decide,
   (addBlock_guard_and_setBlock_unguarded eHit 7 (BlockArg.xyz 0 0 0)).2.1 (by decide)⟩

/-- C7: render(framePart) ticks the camera exactly when the pointer is
captured, pointer capture is unsupported, or fire is held; it then
clears the cumulative mouse deltas exactly once and runs the entity
render update and the scene render with dt = framePart * tickRate. -/
theorem render_camera_condition_and_mouse_clear (e : Engine) (fp : Rat) :
    (e.render fp).2 =
      (if e.hasPointerLock || !e.supportsPointerLock || e.fireHeld
       then [Ev.controlsTickCamera] else [])
      ++ [Ev.clearMouseDelta, Ev.updateEntitiesForRender (fp * e.tickRate),
          Ev.renderingRender (fp * e.tickRate)]
    ∧ (e.render fp).2.count Ev.clearMouseDelta = 1
    ∧ (e.render fp).1.dx = 0 ∧ (e.render fp).1.dy = 0 := by
  refine ⟨rfl, ?_, rfl, rfl⟩
  unfold Engine.render
  cases hc : (e.hasPointerLock || !e.supportsPointerLock || e.fireHeld) <;>
    simp [hc, List.count_cons, List.count_nil]

/-- C8 counterexample: the constructor does not build Registry first;
the recorded construction order starts with Container, refuting the
claimed order Registry, Container, Inputs, World, Rendering, Physics,
Controls, Entities at a concrete engine construction. -/
theorem construction_order_counterexample :
    (makeEngine defaultOpts collabMiss).2 ≠
      [Subsystem.registry, Subsystem.container, Subsystem.inputs,
       Subsystem.world, Subsystem.rendering, Subsystem.physics,
       Subsystem.controls, Subsystem.entities] := by
  decide

/-- C8 amended: the Engine constructor constructs each of the eight
subsystems exactly once, in the source order Container, Inputs,
Registry, World, Rendering, Physics, Controls, Entities. -/
theorem construction_order_amended (o : Opts) (c : Collab) :
    (makeEngine o c).2 =
      [Subsystem.container, Subsystem.inputs, Subsystem.registry,
       Subsystem.world, Subsystem.rendering, Subsystem.physics,
       Subsystem.controls, Subsystem.entities]
    ∧ ∀ s : Subsystem, (makeEngine o c).2.count s = 1 := by
  refine ⟨rfl, ?_⟩
  intro s
  cases s <;> rfl

/-- C9: getBlock on a 3-element coordinate container returns the same
value as getBlock on the three scalars, and setBlock on a container
performs the same world write as setBlock on the three scalars. -/
theorem getBlock_setBlock_overloads (e : Engine) (id : Nat) (x y z : Int) :
    e.getBlock (BlockArg.vec ⟨x, y, z⟩) = e.getBlock (BlockArg.xyz x y z)
    ∧ e.setBlock id (BlockArg.vec ⟨x, y, z⟩) = e.setBlock id (BlockArg.xyz x y z) :=
  ⟨rfl, rfl⟩

/-- C10: constructing with blockTestDistance absent or zero resolves
the configured block-test distance to 10; pick with no distance argument
then behaves as pick with distance 10 (picking is not disabled), while
passing 0 directly to pick still returns none. -/
theorem blockTestDistance_default_ten (o : Opts) (c : Collab)
    (h : o.blockTestDistance = none ∨ o.blockTestDistance = some 0) :
    (makeEngine o c).1.blockTestDistance = 10
    ∧ (∀ pos vec : Option Vec3R,
        (makeEngine o c).1.pick pos vec none
          = (makeEngine o c).1.pick pos vec (some 10))
    ∧ (∀ pos vec : Option Vec3R,
        (makeEngine o c).1.pick pos vec (some 0) = none) := by
  have hb : (makeEngine o c).1.blockTestDistance = 10 := by
    rcases h with h | h <;> simp [makeEngine, jsOrNum, h]
  refine ⟨hb, ?_, ?_⟩
  · intro pos vec
    have hA : ¬ ((none : Option Rat) = some 0) := by simp
    have hB : ¬ ((some (10 : Rat) : Option Rat) = some 0) := by norm_num
    unfold Engine.pick
    rw [if_neg hA, if_neg hB]
    simp only [jsOrNum, hb]
    norm_num
  · intro pos vec
    unfold Engine.pick
    rw [if_pos rfl]

/-- Closed instance of blockTestDistance_default_ten at an options
record with blockTestDistance absent. -/
theorem blockTestDistance_default_ten_witness :
    (defaultOpts.blockTestDistance = none ∨ defaultOpts.blockTestDistance = some 0)
    ∧ (makeEngine defaultOpts collabMiss).1.blockTestDistance = 10
    ∧ (makeEngine defaultOpts collabMiss).1.pick none none none
        = (makeEngine defaultOpts collabMiss).1.pick none none (some 10)
    ∧ (makeEngine defaultOpts collabMiss).1.pick none none (some 0) = none :=
  have h := blockTestDistance_default_ten defaultOpts collabMiss (Or.inl rfl)
  ⟨Or.inl rfl, h.1, h.2.1 none none, h.2.2 none none⟩

end Noa
